import Mathlib

set_option maxHeartbeats 1000000

/-!
Verification of the `auth` contract layer of the goauth repository
(`auth.go`): the `AuthenticatedUser` data model, the `AuthError`
taxonomy with its HTTP status mapping, and the request-context
propagation helpers `SetUserContext` / `UserFromContext`, together with
the middleware dispatch and default-handler behaviour described by the
specification.

Go's `context.Context` is embedded as a chain of key/value derivations
over a base context, exactly the shape `context.WithValue` builds.
Dynamic (`interface` typed) keys and values are embedded as tagged
inductives so that Go's comparison of keys by dynamic type and value,
and the type-asserting lookup `ctx.Value(userContextKey).(*AuthenticatedUser)`,
are represented faithfully: a key of the module-private `contextKey`
string type is a different key than a plain `string` with the same
characters.
-/

/-- Values storable in a user's `Metadata` map (Go type
`map[string]interface{}`): an open dynamic value, embedded as a closed
variant covering the JSON-like shapes applications store; the core never
interprets these. -/
inductive MetaValue where
  | str (s : String)
  | int (n : Int)
  | boolean (b : Bool)
  | null
  | list (vs : List MetaValue)
  | map (m : List (String × MetaValue))

/-- Structure `AuthenticatedUser` from auth.go: `ID`, `Username`,
`Roles []string` and the open `Metadata` map. -/
structure AuthenticatedUser where
  ID : String
  Username : String
  Roles : List String
  Metadata : List (String × MetaValue)

/-- A Go context key is an `interface{}` value compared by dynamic type
and value. `authContextKey s` is a value of the module-private
`contextKey` string type declared at the bottom of auth.go; `goString s`
is a plain `string` key as unrelated middleware would use; `otherKey`
covers keys of any other dynamic type, tagged by a type name. Two keys
of different dynamic types are never equal, regardless of the underlying
characters. -/
inductive CtxKey where
  | goString (s : String)
  | authContextKey (s : String)
  | otherKey (typeName : String) (v : String)
deriving DecidableEq

/-- A value stored in a context is an `interface{}`; its dynamic type
matters for type assertions. `userPtr u` is a value of dynamic type
`*AuthenticatedUser` where `none` embeds the nil pointer; the other
constructors cover values of unrelated dynamic types. -/
inductive CtxValue where
  | userPtr (u : Option AuthenticatedUser)
  | goString (s : String)
  | otherVal (typeName : String) (v : String)

/-- Go `context.Context`, restricted to what this module can observe: a
base context plus the chain of `context.WithValue` derivations made over
it. -/
inductive Context where
  | background
  | withValue (parent : Context) (key : CtxKey) (val : CtxValue)

/-- Lookup `ctx.Value(key)`: the value of the nearest enclosing
`WithValue` derivation whose key equals `key`, and `none` (Go nil) when
no derivation in the chain matches. -/
def Context.value : Context → CtxKey → Option CtxValue
  | .background, _ => none
  | .withValue parent k v, key => if key = k then some v else parent.value key

/-- Constant `userContextKey` from auth.go: the module-private key, of
the private string type `contextKey`, with underlying characters
"authenticated_user". -/
def userContextKey : CtxKey := .authContextKey "authenticated_user"

/-- The Go type assertion `v.(*AuthenticatedUser)` in comma-ok form: the
asserted pointer and `true` when the dynamic type matches, the nil
pointer and `false` otherwise (also when `v` is nil, i.e. no value was
found). -/
def assertUserPtr : Option CtxValue → Option AuthenticatedUser × Bool
  | some (.userPtr u) => (u, true)
  | _ => (none, false)

/-- Function `UserFromContext` from auth.go:
`user, ok := ctx.Value(userContextKey).(*AuthenticatedUser); return user, ok`. -/
def UserFromContext (ctx : Context) : Option AuthenticatedUser × Bool :=
  assertUserPtr (ctx.value userContextKey)

/-- Function `SetUserContext` from auth.go:
`return context.WithValue(ctx, userContextKey, user)`. -/
def SetUserContext (ctx : Context) (user : Option AuthenticatedUser) : Context :=
  Context.withValue ctx userContextKey (.userPtr user)

/-- Constant `http.StatusUnauthorized` from net/http. -/
def StatusUnauthorized : Nat := 401

/-- Constant `http.StatusForbidden` from net/http. -/
def StatusForbidden : Nat := 403

/-- Structure `AuthError` from auth.go. The wrapped cause `Err` is a Go
`error` value, possibly nil; it is embedded as an optional message. -/
structure AuthError where
  Code : Nat
  Message : String
  Err : Option String

/-- Method `Error` of `AuthError`: `return e.Message`. -/
def AuthError.Error (e : AuthError) : String := e.Message

/-- Method `Unwrap` of `AuthError`: `return e.Err`. -/
def AuthError.Unwrap (e : AuthError) : Option String := e.Err

/-- Value `ErrInvalidCredentials` from auth.go. -/
def ErrInvalidCredentials : AuthError :=
  { Code := StatusUnauthorized, Message := "invalid credentials", Err := none }

/-- Value `ErrExpiredCredentials` from auth.go. -/
def ErrExpiredCredentials : AuthError :=
  { Code := StatusUnauthorized, Message := "expired credentials", Err := none }

/-- Value `ErrMissingCredentials` from auth.go. -/
def ErrMissingCredentials : AuthError :=
  { Code := StatusUnauthorized, Message := "crendentials not provided", Err := none }

/-- Value `ErrAccessDenied` from auth.go. -/
def ErrAccessDenied : AuthError :=
  { Code := StatusForbidden, Message := "access denied", Err := none }

/-- An HTTP handler, embedded by the response it writes (status and
body): the only observable of an `http.Handler` in this contract. -/
structure HttpHandler where
  status : Nat
  body : String

/-- An inbound HTTP request, embedded by its header list; only the
pluggable credentials extractor of `AuthOptions` looks at it. -/
structure HttpRequest where
  headers : List (String × String)

/-- Structure `AuthOptions` from auth.go. `CredentialsDuration` is a
`time.Duration` (an integer count of nanoseconds); the two `http.Handler`
fields and the extractor function are nil-able, embedded as `Option`. -/
structure AuthOptions where
  CredentialsDuration : Int
  UnauthorizedHandler : Option HttpHandler
  ForbiddenHandler : Option HttpHandler
  CredentialsExtractor : Option (HttpRequest → Except String CtxValue)

/-- Modelled from the spec: the default `UnauthorizedHandler`, "a generic
401 response" (spec §4.3); the defaulting code lives in the concrete
schemes, which are not under src/. -/
def defaultUnauthorizedHandler : HttpHandler :=
  { status := StatusUnauthorized, body := "Unauthorized" }

/-- Modelled from the spec: the default `ForbiddenHandler`, "a generic
403 response" (spec §4.3); the defaulting code lives in the concrete
schemes, which are not under src/. -/
def defaultForbiddenHandler : HttpHandler :=
  { status := StatusForbidden, body := "Forbidden" }

/-- Modelled from the spec: the handler actually run on authentication
failure — the configured `UnauthorizedHandler`, or the default when the
option is unset (nil). -/
def effectiveUnauthorizedHandler (o : AuthOptions) : HttpHandler :=
  o.UnauthorizedHandler.getD defaultUnauthorizedHandler

/-- Modelled from the spec: the handler actually run on role-authorization
failure — the configured `ForbiddenHandler`, or the default when the
option is unset (nil). -/
def effectiveForbiddenHandler (o : AuthOptions) : HttpHandler :=
  o.ForbiddenHandler.getD defaultForbiddenHandler

/-- Non-empty intersection of a required role set with a principal's
roles, by case-sensitive exact string match. -/
def rolesIntersect (required roles : List String) : Bool :=
  roles.any (fun r => required.contains r)

/-- Outcome of the `Authenticate` step of a scheme. -/
inductive AuthOutcome where
  | success (u : AuthenticatedUser)
  | failure (e : AuthError)

/-- Which handler a middleware hands the request to: the wrapped
downstream handler, the `UnauthorizedHandler`, or the `ForbiddenHandler`. -/
inductive HandlerChoice where
  | downstream
  | unauthorized
  | forbidden
deriving DecidableEq

/-- Modelled from the spec: the dispatch of `MiddlewareWithRoles(roles...)`
(spec §4.2, §4.5) — in src/ the middleware is only an interface method of
`Authenticator`, with no body. On a failed authentication the
`UnauthorizedHandler` runs; after a successful one the downstream handler
runs iff the principal's `Roles` intersect the required set in at least
one element, and otherwise the `ForbiddenHandler` runs. -/
def middlewareWithRolesDispatch (required : List String) : AuthOutcome → HandlerChoice
  | .failure _ => .unauthorized
  | .success u => if rolesIntersect required u.Roles then .downstream else .forbidden

/-- Whether any derivation in the chain of a context used the
module-private user key, i.e. whether the context ever passed through
`SetUserContext` (or any hypothetical in-module write under
`userContextKey`). -/
def Context.usesUserKey : Context → Bool
  | .background => false
  | .withValue parent k _ => decide (k = userContextKey) || parent.usesUserKey

/-- Helper: the boolean role-intersection test is true exactly when some
role of the principal is among the required roles. -/
theorem rolesIntersect_iff (required roles : List String) :
    rolesIntersect required roles = true ↔ ∃ r, r ∈ roles ∧ r ∈ required := by
  simp [rolesIntersect, List.any_eq_true]

/-- Claim C1: context round-trip — for every context `ctx` and every
`AuthenticatedUser` `u`, `UserFromContext (SetUserContext ctx u)` returns
the pointer to `u` together with the presence flag `true`. -/
theorem userFromContext_setUserContext (ctx : Context) (u : AuthenticatedUser) :
    UserFromContext (SetUserContext ctx (some u)) = (some u, true) := by
  simp [UserFromContext, SetUserContext, Context.value, assertUserPtr]

/-- Claim C2: context isolation on absence — on a context whose
derivation chain never used the module-private user key (in particular,
one that never passed through `SetUserContext`), `UserFromContext`
returns the nil pointer and `found = false`; being a total function of
the embedding, it never panics or errors. -/
theorem userFromContext_untouched (ctx : Context) (h : ctx.usesUserKey = false) :
    UserFromContext ctx = (none, false) := by
  induction ctx with
  | background => rfl
  | withValue parent k v ih =>
    simp only [Context.usesUserKey, Bool.or_eq_false_iff, decide_eq_false_iff_not] at h
    have hk : userContextKey ≠ k := fun e => h.1 e.symm
    show assertUserPtr ((Context.withValue parent k v).value userContextKey) = (none, false)
    rw [Context.value, if_neg hk]
    exact ih h.2

/-- Witness for C2 at a concrete adversarial context: a plain string key
with the same characters "authenticated_user", holding a real user
pointer, is not the module key, and `UserFromContext` reports absence. -/
theorem userFromContext_untouched_witness :
    (Context.withValue Context.background (CtxKey.goString "authenticated_user")
        (CtxValue.userPtr (some ⟨"u1", "alice", ["admin"], []⟩))).usesUserKey = false ∧
      UserFromContext
        (Context.withValue Context.background (CtxKey.goString "authenticated_user")
          (CtxValue.userPtr (some ⟨"u1", "alice", ["admin"], []⟩))) = (none, false) :=
  ⟨by decide, userFromContext_untouched _ (by decide)⟩

/-- Claim C3: error taxonomy HTTP status mapping — `ErrMissingCredentials`,
`ErrInvalidCredentials` and `ErrExpiredCredentials` carry code 401 and
`ErrAccessDenied` carries code 403. -/
theorem authError_status_codes :
    ErrMissingCredentials.Code = 401 ∧ ErrInvalidCredentials.Code = 401 ∧
      ErrExpiredCredentials.Code = 401 ∧ ErrAccessDenied.Code = 403 :=
  ⟨rfl, rfl, rfl, rfl⟩

/-- Claim C4: role-gated middleware uses set-intersection semantics —
after a successful authentication, `MiddlewareWithRoles` continues to the
downstream handler iff the principal's `Roles` share at least one element
with the required set, and invokes the `ForbiddenHandler` otherwise; one
shared role suffices. -/
theorem middlewareWithRoles_set_intersection (required : List String) (u : AuthenticatedUser) :
    (middlewareWithRolesDispatch required (.success u) = .downstream ↔
      ∃ r, r ∈ u.Roles ∧ r ∈ required) ∧
    (middlewareWithRolesDispatch required (.success u) = .forbidden ↔
      ¬ ∃ r, r ∈ u.Roles ∧ r ∈ required) := by
  by_cases hb : rolesIntersect required u.Roles = true
  · have hex := (rolesIntersect_iff required u.Roles).mp hb
    simp [middlewareWithRolesDispatch, hb, hex]
  · have hnex : ¬ ∃ r, r ∈ u.Roles ∧ r ∈ required :=
      fun hx => hb ((rolesIntersect_iff required u.Roles).mpr hx)
    rw [Bool.not_eq_true] at hb
    simp [middlewareWithRolesDispatch, hb, hnex]

/-- Claim C5: private, non-colliding context key — a value stored by
other middleware under the plain string key "authenticated_user" is
invisible to `UserFromContext`, and the principal stored by
`SetUserContext` is not observable under any plain string key. -/
theorem contextKey_no_collision (ctx : Context) (u : Option AuthenticatedUser)
    (v : CtxValue) (s : String) :
    UserFromContext (Context.withValue ctx (.goString "authenticated_user") v) =
        UserFromContext ctx ∧
      (SetUserContext ctx u).value (.goString s) = ctx.value (.goString s) := by
  constructor
  · show assertUserPtr (Context.value _ userContextKey) = _
    rw [Context.value, if_neg (fun h => CtxKey.noConfusion h)]
    rfl
  · show Context.value (Context.withValue ctx userContextKey (.userPtr u)) (.goString s) = _
    rw [Context.value, if_neg (fun h => CtxKey.noConfusion h)]

/-- Claim C6: `SetUserContext` does not mutate its input — it only
derives: the result is exactly a `WithValue` node whose parent is the
unchanged input context (which, contexts being immutable values, still
answers every lookup as before), and lookups under every other key
delegate to the input context unchanged. -/
theorem setUserContext_no_mutation (ctx : Context) (u : Option AuthenticatedUser)
    (k : CtxKey) (h : k ≠ userContextKey) :
    SetUserContext ctx u = Context.withValue ctx userContextKey (.userPtr u) ∧
      (SetUserContext ctx u).value k = ctx.value k := by
  refine ⟨rfl, ?_⟩
  show Context.value (Context.withValue ctx userContextKey (.userPtr u)) k = _
  rw [Context.value, if_neg h]

/-- Witness for C6 at a concrete input: deriving from the background
context leaves the unrelated "trace_id" string key unaffected. -/
theorem setUserContext_no_mutation_witness :
    CtxKey.goString "trace_id" ≠ userContextKey ∧
      (SetUserContext Context.background (some ⟨"u1", "alice", ["admin"], []⟩) =
          Context.withValue Context.background userContextKey
            (.userPtr (some ⟨"u1", "alice", ["admin"], []⟩)) ∧
        (SetUserContext Context.background
              (some ⟨"u1", "alice", ["admin"], []⟩)).value (CtxKey.goString "trace_id") =
          Context.background.value (CtxKey.goString "trace_id")) :=
  ⟨fun h => CtxKey.noConfusion h,
    setUserContext_no_mutation Context.background (some ⟨"u1", "alice", ["admin"], []⟩)
      (CtxKey.goString "trace_id") (fun h => CtxKey.noConfusion h)⟩

/-- Claim C7: default failure handlers — when no handlers are configured
in `AuthOptions`, the effective `UnauthorizedHandler` is a generic 401
response and the effective `ForbiddenHandler` is a generic 403 response. -/
theorem default_failure_handlers (o : AuthOptions)
    (h1 : o.UnauthorizedHandler = none) (h2 : o.ForbiddenHandler = none) :
    (effectiveUnauthorizedHandler o).status = 401 ∧
      (effectiveForbiddenHandler o).status = 403 := by
  simp [effectiveUnauthorizedHandler, effectiveForbiddenHandler, h1, h2,
    defaultUnauthorizedHandler, defaultForbiddenHandler, StatusUnauthorized, StatusForbidden]

/-- Witness for C7 at the zero-value options record. -/
theorem default_failure_handlers_witness :
    (AuthOptions.mk 0 none none none).UnauthorizedHandler = none ∧
      (AuthOptions.mk 0 none none none).ForbiddenHandler = none ∧
      ((effectiveUnauthorizedHandler (AuthOptions.mk 0 none none none)).status = 401 ∧
        (effectiveForbiddenHandler (AuthOptions.mk 0 none none none)).status = 403) :=
  ⟨rfl, rfl, default_failure_handlers (AuthOptions.mk 0 none none none) rfl rfl⟩

/-- Counterexample to claim C8 as stated: `Roles` is a Go slice
(`[]string`), not a duplicate-free set — a concrete `AuthenticatedUser`
whose `Roles` list holds the same string twice is representable. -/
theorem roles_not_duplicate_free :
    ¬ ∀ u : AuthenticatedUser, u.Roles.Nodup := by
  intro h
  have hd := h ⟨"u1", "alice", ["admin", "admin"], []⟩
  simp at hd

/-- Claim C8 as amended: `Roles` is a list of strings in which duplicates
and order are representable, but membership is by case-sensitive exact
match and role authorization depends only on which strings are members —
two principals with extensionally equal role lists are dispatched
identically, and a differently-cased role does not match. -/
theorem roles_list_set_semantics (u v : AuthenticatedUser) (required : List String)
    (h : ∀ r : String, r ∈ u.Roles ↔ r ∈ v.Roles) :
    rolesIntersect required u.Roles = rolesIntersect required v.Roles ∧
      middlewareWithRolesDispatch required (.success u) =
        middlewareWithRolesDispatch required (.success v) ∧
      rolesIntersect ["Admin"] ["admin"] = false := by
  have h1 : rolesIntersect required u.Roles = true ↔
      rolesIntersect required v.Roles = true := by
    rw [rolesIntersect_iff, rolesIntersect_iff]
    constructor
    · rintro ⟨r, hr, hq⟩; exact ⟨r, (h r).mp hr, hq⟩
    · rintro ⟨r, hr, hq⟩; exact ⟨r, (h r).mpr hr, hq⟩
  have he : rolesIntersect required u.Roles = rolesIntersect required v.Roles := by
    rw [Bool.eq_iff_iff]
    exact h1
  refine ⟨he, ?_, by decide⟩
  simp only [middlewareWithRolesDispatch, he]

/-- Witness for the amended C8: a principal whose role list repeats "a"
and a principal with the single role "a" have extensionally equal role
lists and are dispatched identically. -/
theorem roles_list_set_semantics_witness :
    (∀ r : String, r ∈ (AuthenticatedUser.mk "u1" "alice" ["a", "a"] []).Roles ↔
        r ∈ (AuthenticatedUser.mk "u2" "bob" ["a"] []).Roles) ∧
      (rolesIntersect ["a"] (AuthenticatedUser.mk "u1" "alice" ["a", "a"] []).Roles =
          rolesIntersect ["a"] (AuthenticatedUser.mk "u2" "bob" ["a"] []).Roles ∧
        middlewareWithRolesDispatch ["a"]
            (.success (AuthenticatedUser.mk "u1" "alice" ["a", "a"] [])) =
          middlewareWithRolesDispatch ["a"]
            (.success (AuthenticatedUser.mk "u2" "bob" ["a"] [])) ∧
        rolesIntersect ["Admin"] ["admin"] = false) := by
  have h : ∀ r : String, r ∈ (AuthenticatedUser.mk "u1" "alice" ["a", "a"] []).Roles ↔
      r ∈ (AuthenticatedUser.mk "u2" "bob" ["a"] []).Roles := by
    intro r
    show r ∈ (["a", "a"] : List String) ↔ r ∈ (["a"] : List String)
    simp
  exact ⟨h, roles_list_set_semantics _ _ ["a"] h⟩

/-- Claim C9: `AuthError` accessor behaviour — for every `AuthError` `e`,
`e.Error` returns exactly `e.Message` (the wrapped cause is not part of
the client-visible message) and `e.Unwrap` returns exactly `e.Err`. -/
theorem authError_accessors (e : AuthError) :
    e.Error = e.Message ∧ e.Unwrap = e.Err :=
  ⟨rfl, rfl⟩

/-- Claim C10: nil-principal association — attaching the nil pointer via
`SetUserContext` yields a context from which `UserFromContext` returns
the nil pointer with the presence flag `true`, and the flag alone cannot
distinguish an attached nil user from an attached real user. -/
theorem userFromContext_nil_principal (ctx : Context) (u : AuthenticatedUser) :
    UserFromContext (SetUserContext ctx none) = (none, true) ∧
      (UserFromContext (SetUserContext ctx none)).2 =
        (UserFromContext (SetUserContext ctx (some u))).2 := by
  constructor <;> simp [UserFromContext, SetUserContext, Context.value, assertUserPtr]
